import Mathlib

/-!
Verification of the duplex-stream abstraction in `src/uvw/stream.hpp` (uvw).

The stream operations are shallowly embedded: each native callback or entry
point becomes a Lean function from the engine-reported outcome (a signed
integer, negative meaning error) to the list of events it publishes, together
with the fate of any buffer it manages.  Buffers are identified by a numeric
tag plus the size the allocator reserved, so ownership transfer is visible in
the event payloads.  Parts of the repository that live outside `stream.hpp`
(the `Handle::invoke` error policy and the transient-request lifecycle of
`request.hpp`) are modelled from the specification and marked as such in their
doc comments.
-/

/-- The typed event variants published by a stream or a request, mirroring the
`Event` subclasses declared in `stream.hpp` plus the `ErrorEvent` of the
handle base.  `dataEvent` carries the buffer it owns (by tag) and the length
field, exactly as `DataEvent{std::unique_ptr<char[]>, std::size_t}` does. -/
inductive UvwEvent where
  | connectEvent : UvwEvent
  | endEvent : UvwEvent
  | listenEvent : UvwEvent
  | shutdownEvent : UvwEvent
  | writeEvent : UvwEvent
  | dataEvent (buf : Nat) (length : Nat) : UvwEvent
  | errorEvent (code : Int) : UvwEvent
  deriving DecidableEq, Repr

/-- A buffer produced by the engine allocation callback: `base` identifies the
allocation, `size` is the number of bytes the allocator reserved. -/
structure Buffer where
  base : Nat
  size : Nat
  deriving DecidableEq, Repr

/-- What the read callback does with the allocator-supplied buffer: either its
ownership moves into the `DataEvent` payload, or the local `std::unique_ptr`
destroys it before the callback returns. -/
inductive BufFate where
  | transferredToData : BufFate
  | freedImmediately : BufFate
  deriving DecidableEq, Repr

/-- libuv EOF sentinel (`UV_EOF`), the value `uv_read` callbacks receive as
`nread` at end of stream. -/
def UV_EOF : Int := -4095

/-- `StreamHandle::readCallback` (stream.hpp:134-149).  The callback wraps
`buf->base` in a `std::unique_ptr` first, then branches on `nread`:
EOF sentinel publishes `EndEvent`; `nread > 0` publishes a `DataEvent` that
takes the buffer and `static_cast<std::size_t>(nread)`; anything else
publishes `ErrorEvent(nread)`.  The result is the list of events published
and what happened to the buffer. -/
def readCallback (nread : Int) (buf : Buffer) : List UvwEvent × BufFate :=
  if nread = UV_EOF then
    ([UvwEvent.endEvent], BufFate.freedImmediately)
  else if nread > 0 then
    ([UvwEvent.dataEvent buf.base nread.toNat], BufFate.transferredToData)
  else
    ([UvwEvent.errorEvent nread], BufFate.freedImmediately)

/-- `StreamHandle::listenCallback` (stream.hpp:151-155): a nonzero status
publishes `ErrorEvent{status}`, a zero status publishes `ListenEvent`. -/
def listenCallback (status : Int) : List UvwEvent :=
  if status ≠ 0 then [UvwEvent.errorEvent status] else [UvwEvent.listenEvent]

/-- `StreamHandle::tryWrite` (stream.hpp:380-390).  The argument
`nativeResult` is what `uv_try_write` returned.  The unique_ptr parameter is
taken by value and never released, so the data buffer is destroyed when the
function returns on every path.  Result: returned count, events published,
fate of the submitted buffer. -/
def tryWrite (nativeResult : Int) (buf : Buffer) (len : Nat) :
    Int × List UvwEvent × BufFate :=
  if nativeResult < 0 then
    (0, [UvwEvent.errorEvent nativeResult], BufFate.freedImmediately)
  else
    (nativeResult, [], BufFate.freedImmediately)

/-- Predicate: the event is a `DataEvent`. -/
def isDataEvent : UvwEvent → Bool
  | UvwEvent.dataEvent _ _ => true
  | _ => false

/-- Predicate: the event is an `ErrorEvent`. -/
def isErrorEvent : UvwEvent → Bool
  | UvwEvent.errorEvent _ => true
  | _ => false

/-- Modelled from the spec: `Handle::invoke` (handle.hpp, not under src).
Per the error policy, "every fallible entry point that fails at the native
call boundary publishes an Error event carrying the native error code"; a
non-negative native result publishes nothing. -/
def invoke (nativeResult : Int) : List UvwEvent :=
  if nativeResult < 0 then [UvwEvent.errorEvent nativeResult] else []

/-- Modelled from the spec: the engine primitive behind `stop()`
(`uv_read_stop`, the external engine boundary).  Stopping read delivery is
"idempotent: calling on an already-stopped stream is a no-op success, never
an error": the native result is 0 whether or not a read registration was
active, and afterwards no read registration is active.  Input and output
carry the reading flag of the stream. -/
def uvReadStop (reading : Bool) : Int × Bool := (0, false)

/-- `StreamHandle::stop` (stream.hpp:237-239): it forwards the native
read-stop result through `invoke`, so it publishes events exactly when the
native result is negative.  Returns published events and the new reading
flag. -/
def stop (reading : Bool) : List UvwEvent × Bool :=
  let r := uvReadStop reading
  (invoke r.1, r.2)

/-- Modelled from the spec: `defaultCallback` of the request base
(request.hpp, not under src).  A transient request publishes exactly one
terminal event — `ErrorEvent` with the code when the native completion status
is negative, its own success event otherwise — and is destroyed immediately
after that single event is published. -/
def requestTerminalEvent (success : UvwEvent) (status : Int) : UvwEvent :=
  if status < 0 then UvwEvent.errorEvent status else success

/-- The pair of one-shot subscriptions `shutdown()` and `write()` install on
their transient request: `once<ErrorEvent>` and a `once` subscription for the
success event.  Each flag records whether that handler is still armed. -/
structure OnceSubs where
  onError : Bool
  onSuccess : Bool
  deriving DecidableEq, Repr

/-- Forwarding of request events to the stream through the two `once`
listeners: a matching armed handler republishes the event on the stream and
disarms itself; a disarmed or non-matching event forwards nothing. -/
def forwardOnce (success : UvwEvent) : OnceSubs → List UvwEvent → List UvwEvent
  | _, [] => []
  | subs, e :: rest =>
    if isErrorEvent e then
      if subs.onError then
        e :: forwardOnce success { subs with onError := false } rest
      else forwardOnce success subs rest
    else if e = success then
      if subs.onSuccess then
        e :: forwardOnce success { subs with onSuccess := false } rest
      else forwardOnce success subs rest
    else forwardOnce success subs rest

/-- `StreamHandle::shutdown` (stream.hpp:173-182): it creates one transient
`ShutdownReq`, arms `once<ErrorEvent>` and `once<ShutdownEvent>` listeners
that republish on the stream, then issues the native shutdown.  Given the
native completion status, the events forwarded to the stream subscribers are
the request terminal event filtered through the once-listeners. -/
def shutdown (status : Int) : List UvwEvent :=
  forwardOnce UvwEvent.shutdownEvent ⟨true, true⟩
    [requestTerminalEvent UvwEvent.shutdownEvent status]

/-- Actions performed along a write-request lifecycle, used to order buffer
frees against completion. -/
inductive WriteAction where
  | nativeWrite : WriteAction
  | publishToStream (e : UvwEvent) : WriteAction
  | freeDataBase : WriteAction
  | freeBufsArray : WriteAction
  deriving DecidableEq, Repr

/-- Predicate: the action publishes a completion event to the stream. -/
def isPublish : WriteAction → Bool
  | WriteAction.publishToStream _ => true
  | _ => false

/-- Lifecycle trace of the ownership-transferring overload
`write(std::unique_ptr<char[]>, std::size_t)` (stream.hpp:253-267): the
`WriteReq` is built with a deleter `delete[] bufs->base; delete[] bufs`,
the once-listeners forward the terminal event, `uv_write` is issued.
Completion timing is modelled from the spec (request.hpp is not under src):
the request publishes its single completion event and is destroyed
immediately afterwards, which is when its deleter runs. -/
def writeOwningTrace (status : Int) : List WriteAction :=
  [WriteAction.nativeWrite,
   WriteAction.publishToStream (requestTerminalEvent UvwEvent.writeEvent status),
   WriteAction.freeDataBase,
   WriteAction.freeBufsArray]

/-- Lifecycle trace of the borrowing overload `write(char *, std::size_t)`
(stream.hpp:281-295): identical except the deleter is `delete[] bufs` only,
so the caller data buffer is never freed.  Completion timing modelled from
the spec as for the owning overload. -/
def writeBorrowingTrace (status : Int) : List WriteAction :=
  [WriteAction.nativeWrite,
   WriteAction.publishToStream (requestTerminalEvent UvwEvent.writeEvent status),
   WriteAction.freeBufsArray]

/-- Modelled from the spec: the engine boundary behind `write()`.  Each
`write()` call issues `uv_write` synchronously before returning, and the
engine appends the submitted buffer to the outbound queue of the stream;
queued writes drain front first. -/
def issueWrite (queue : List (List Nat)) (buf : List Nat) : List (List Nat) :=
  queue ++ [buf]

/-- Modelled from the spec: the byte sequence the peer observes is the
concatenation of the queued write buffers in queue order. -/
def peerObserved (queue : List (List Nat)) : List Nat :=
  queue.flatten

/-- Predicate: the action is the free of the caller data buffer. -/
def isFreeDataBase : WriteAction → Bool
  | WriteAction.freeDataBase => true
  | _ => false

/-- C1: for every read chunk delivered with a positive byte count, the read
callback publishes exactly one Data event whose payload owns the freshly
allocated buffer and whose length field is exactly that count, for every size
the allocator may have reserved. -/
theorem readCallback_positive_publishes_exact_data
    (nread : Int) (buf : Buffer) (h : 0 < nread) :
    readCallback nread buf
      = ([UvwEvent.dataEvent buf.base nread.toNat], BufFate.transferredToData) := by
  have hne : nread ≠ UV_EOF := by
    intro he
    rw [he] at h
    norm_num [UV_EOF] at h
  simp [readCallback, hne, h]

/-- Witness for C1: a 4-byte chunk in a 65536-byte allocation yields one Data
event of length 4 that owns the buffer. -/
theorem readCallback_positive_publishes_exact_data_witness :
    readCallback 4 ⟨7, 65536⟩
      = ([UvwEvent.dataEvent 7 4], BufFate.transferredToData) :=
  readCallback_positive_publishes_exact_data 4 ⟨7, 65536⟩ (by decide)

/-- C2 counterexample: the engine outcome 0 is non-negative, yet the read
callback publishes an Error event (with code 0). -/
theorem readCallback_zero_publishes_error :
    readCallback 0 ⟨0, 16⟩ = ([UvwEvent.errorEvent 0], BufFate.freedImmediately)
      ∧ ¬ (0 : Int) < 0 := by
  constructor
  · decide
  · decide

/-- C2 amended: the read callback publishes an Error event iff the outcome is
neither the EOF sentinel nor positive — a condition satisfied by every
negative non-EOF outcome but also by zero — and then it publishes exactly one
Error event carrying that outcome as its code. -/
theorem readCallback_error_characterization (nread : Int) (buf : Buffer) :
    ((readCallback nread buf).1.any isErrorEvent = true ↔
        (nread ≠ UV_EOF ∧ nread ≤ 0))
      ∧ (nread ≠ UV_EOF → nread ≤ 0 →
          (readCallback nread buf).1 = [UvwEvent.errorEvent nread]) := by
  by_cases he : nread = UV_EOF
  · simp [readCallback, he, isErrorEvent]
  · by_cases hp : 0 < nread <;>
      simp [readCallback, he, hp, isErrorEvent] <;> omega

/-- Witness for C2 amended: at outcome -104 the callback publishes exactly
one Error event with code -104. -/
theorem readCallback_error_characterization_witness :
    (readCallback (-104) ⟨3, 16⟩).1 = [UvwEvent.errorEvent (-104)] :=
  (readCallback_error_characterization (-104) ⟨3, 16⟩).2 (by decide) (by decide)

/-- C3: on every invocation the allocator buffer meets exactly one fate —
for a positive count its ownership transfers into the payload of the single
Data event published, and for any non-positive outcome (EOF or error alike)
it is freed immediately while no Data event exposes it. -/
theorem readCallback_buffer_freed_once (nread : Int) (buf : Buffer) :
    (0 < nread →
        (readCallback nread buf).2 = BufFate.transferredToData
          ∧ (readCallback nread buf).1.countP (fun e => isDataEvent e) = 1)
      ∧ (nread ≤ 0 →
        (readCallback nread buf).2 = BufFate.freedImmediately
          ∧ (readCallback nread buf).1.countP (fun e => isDataEvent e) = 0) := by
  by_cases he : nread = UV_EOF
  · subst he
    simp [readCallback, isDataEvent, UV_EOF]
  · by_cases hp : 0 < nread <;>
      simp [readCallback, he, hp, isDataEvent] <;> omega

/-- Witness for C3: a positive chunk transfers the buffer into exactly one
Data event. -/
theorem readCallback_buffer_freed_once_witness :
    (readCallback 2 ⟨1, 8⟩).2 = BufFate.transferredToData
      ∧ (readCallback 2 ⟨1, 8⟩).1.countP (fun e => isDataEvent e) = 1 :=
  (readCallback_buffer_freed_once 2 ⟨1, 8⟩).1 (by decide)

/-- C4: tryWrite never returns a negative count: a non-negative native result
is returned unchanged with no event published, while a negative native result
publishes exactly one Error event carrying that code and returns 0. -/
theorem tryWrite_normalizes (nativeResult : Int) (buf : Buffer) (len : Nat) :
    0 ≤ (tryWrite nativeResult buf len).1
      ∧ (0 ≤ nativeResult →
          tryWrite nativeResult buf len
            = (nativeResult, [], BufFate.freedImmediately))
      ∧ (nativeResult < 0 →
          tryWrite nativeResult buf len
            = (0, [UvwEvent.errorEvent nativeResult], BufFate.freedImmediately)) := by
  by_cases h : nativeResult < 0 <;> simp [tryWrite, h] <;> omega

/-- Witness for C4: the native result -5 is normalized to a returned 0 with a
single Error event carrying -5. -/
theorem tryWrite_normalizes_witness :
    tryWrite (-5) ⟨0, 4⟩ 4
      = (0, [UvwEvent.errorEvent (-5)], BufFate.freedImmediately) :=
  (tryWrite_normalizes (-5) ⟨0, 4⟩ 4).2.2 (by decide)

/-- C6: each native listen callback publishes exactly one event — a Listen
event on a zero status, an Error event carrying the status otherwise; never
both and never neither. -/
theorem listenCallback_one_event (status : Int) :
    (listenCallback status).length = 1
      ∧ (status = 0 → listenCallback status = [UvwEvent.listenEvent])
      ∧ (status ≠ 0 → listenCallback status = [UvwEvent.errorEvent status]) := by
  by_cases h : status = 0 <;> simp [listenCallback, h]

/-- Witness for C6: a zero status publishes exactly the Listen event. -/
theorem listenCallback_one_event_witness :
    listenCallback 0 = [UvwEvent.listenEvent] :=
  (listenCallback_one_event 0).2.1 rfl

/-- C5: the ownership-transferring write overload frees the submitted data
buffer exactly once, and only after the single completion event (Write or
Error) has been published — never before completion, never twice; the
borrowing overload never frees the caller's data buffer. -/
theorem write_buffer_ownership (status : Int) :
    ((writeOwningTrace status).countP (fun a => isFreeDataBase a) = 1
      ∧ ((writeOwningTrace status).takeWhile (fun a => !isPublish a)).countP
          (fun a => isFreeDataBase a) = 0
      ∧ (writeOwningTrace status).countP (fun a => isPublish a) = 1)
      ∧ (writeBorrowingTrace status).countP (fun a => isFreeDataBase a) = 0 :=
  ⟨⟨rfl, rfl, rfl⟩, rfl⟩

/-- C7: stop() on a stream with no active read registration publishes no
event at all — in particular no Error event — and stop() may be repeated
safely: a call on any stream publishes nothing and so does a second call
right after it. -/
theorem stop_idempotent_noop (reading : Bool) :
    (stop false).1 = []
      ∧ (stop reading).1 = []
      ∧ (stop (stop reading).2).1 = [] :=
  ⟨rfl, rfl, rfl⟩

/-- C8: each shutdown() call forwards exactly one event to the stream
subscribers — a Shutdown event when the native completion status is
non-negative, one Error event carrying the status when it is negative —
never both and never more than one of either. -/
theorem shutdown_at_most_one_event (status : Int) :
    (0 ≤ status → shutdown status = [UvwEvent.shutdownEvent])
      ∧ (status < 0 → shutdown status = [UvwEvent.errorEvent status]) := by
  by_cases h : status < 0 <;>
    simp [shutdown, requestTerminalEvent, forwardOnce, isErrorEvent, h] <;> omega

/-- Witness for C8: a failed native shutdown with status -32 forwards exactly
one Error event with code -32. -/
theorem shutdown_at_most_one_event_witness :
    shutdown (-32) = [UvwEvent.errorEvent (-32)] :=
  (shutdown_at_most_one_event (-32)).2 (by decide)

/-- C9: writes issued on one stream are observed by the peer in issuance
order: for any sequence of issued buffers the peer observes exactly their
bytes in issuance order appended to what was queued before, and in
particular after issuing bufA then bufB every byte of bufA is delivered
before any byte of bufB. -/
theorem writes_observed_in_issuance_order
    (queue : List (List Nat)) (ws : List (List Nat)) (bufA bufB : List Nat) :
    peerObserved (ws.foldl issueWrite queue) = peerObserved queue ++ ws.flatten
      ∧ peerObserved (issueWrite (issueWrite queue bufA) bufB)
          = peerObserved queue ++ (bufA ++ bufB) := by
  constructor
  · induction ws generalizing queue with
    | nil => simp
    | cons w rest ih =>
      rw [List.foldl_cons, ih]
      simp [peerObserved, issueWrite]
  · simp [peerObserved, issueWrite]

/-- C10: the ownership-taking tryWrite destroys the submitted buffer when it
returns, whatever the native outcome — full write, partial write, zero bytes
written, or failure — so the unwritten remainder can never be retried from
the same buffer. -/
theorem tryWrite_always_frees_buffer
    (nativeResult : Int) (buf : Buffer) (len : Nat) :
    (tryWrite nativeResult buf len).2.2 = BufFate.freedImmediately := by
  by_cases h : nativeResult < 0 <;> simp [tryWrite, h]
